import Mathlib

/-!
Shallow embedding of `src/reboot_if_no_internet.py` (seanlinmt/autorebooter).

External capabilities (the `ping` binary, TCP connect, `systemctl`, the
`reboot` binary, the euid query) are modelled as explicit environment
records; each Python function becomes a Lean function from its arguments
and environment to a trace recording its observable effects.
Python floats are modelled as rationals, with a separate constructor for
values (NaN/inf) on which `round` raises.
-/

namespace Autorebooter

/-- Outcome of trying to execute an external command:
either the binary is missing (`FileNotFoundError` on exec) or the
command runs and exits with a return code. -/
inductive CmdOutcome where
  | unavailable : CmdOutcome
  | exits : Int → CmdOutcome
deriving DecidableEq, Repr

/-- Outcome of `socket.create_connection`: either the connection completes
within the timeout, or an `OSError` (timeout / refused / unreachable). -/
inductive TcpOutcome where
  | connected : TcpOutcome
  | osError : TcpOutcome
deriving DecidableEq, Repr

/-- Environment a single `has_internet` call runs in. -/
structure ProbeEnv where
  ping : CmdOutcome
  tcp : TcpOutcome
deriving DecidableEq, Repr

/-- A Python float as supplied for `--timeout`: either an actual rational
value, or a value (NaN / infinity) on which `int(round(.))` raises. -/
inductive PyFloat where
  | val : ℚ → PyFloat
  | malformed : PyFloat
deriving DecidableEq, Repr

/-- Python 3 `round` to the nearest integer, halves to even. -/
def pyRound (q : ℚ) : ℤ :=
  let fl : ℤ := ⌊q⌋
  let fr : ℚ := q - fl
  if fr < 1/2 then fl
  else if 1/2 < fr then fl + 1
  else if fl % 2 = 0 then fl else fl + 1

example : pyRound (5/2) = 2 := by norm_num [pyRound]

example : pyRound (7/2) = 4 := by norm_num [pyRound]

example : pyRound (-1/2) = 0 := by norm_num [pyRound]

example : pyRound (-3/2) = -2 := by norm_num [pyRound]

/-- `wait_secs = max(1, int(round(timeout)))`, with the `try/except`
degrading a malformed timeout to 1. -/
def waitSecs : PyFloat → ℤ
  | .val q => max 1 (pyRound q)
  | .malformed => 1

/-- Trace of one `has_internet` call: the boolean it returns and the
observable calls it made. -/
structure ProbeTrace where
  result : Bool
  /-- the `-W` value passed to `ping` (always computed and passed) -/
  pingWait : ℤ
  /-- whether the TCP fallback branch ran -/
  usedFallback : Bool
  /-- port given to `socket.create_connection`, when the fallback ran -/
  tcpPort : Option ℤ
  /-- timeout given to `socket.create_connection`, when the fallback ran -/
  tcpTimeout : Option PyFloat
deriving DecidableEq, Repr

/-- Embedding of `has_internet(host, port, timeout)`. -/
def has_internet (env : ProbeEnv) (_host : String) (port : ℤ)
    (timeout : PyFloat) : ProbeTrace :=
  let w := waitSecs timeout
  match env.ping with
  | .exits rc => ⟨rc == 0, w, false, none, none⟩
  | .unavailable =>
    -- `probe_port = port or 53`: an int is falsy exactly when it is 0
    let probe_port : ℤ := if port = 0 then 53 else port
    match env.tcp with
    | .connected => ⟨true, w, true, some probe_port, some timeout⟩
    | .osError => ⟨false, w, true, some probe_port, some timeout⟩

/-- Environment for `reboot_now`: outcomes of the two reboot commands. -/
structure RebootEnv where
  systemctl : CmdOutcome
  rebootCmd : CmdOutcome
deriving DecidableEq, Repr

/-- Trace of one `reboot_now` call. -/
structure RebootTrace where
  /-- the warning log record (emitted unconditionally) -/
  logged : Bool
  /-- the `[dry-run]` print -/
  dryPrinted : Bool
  /-- `subprocess.run(["systemctl","reboot","--force"], check=True)` called -/
  systemctlCalled : Bool
  /-- `subprocess.run(["reboot","-f"])` called -/
  rebootCmdCalled : Bool
  /-- an exception escaped `reboot_now` -/
  raised : Bool
deriving DecidableEq, Repr

/-- Embedding of `reboot_now(dry_run)`.  The primary call has `check=True`,
so both a missing `systemctl` and a nonzero exit raise, and both are caught
by `except Exception`.  The fallback call has no `check` and is outside the
`try`, so its nonzero exit is ignored but a missing `reboot` binary raises
`FileNotFoundError` out of the function. -/
def reboot_now (env : RebootEnv) (dry_run : Bool) : RebootTrace :=
  if dry_run then ⟨true, true, false, false, false⟩
  else if env.systemctl = .exits 0 then ⟨true, false, true, false, false⟩
  else
    match env.rebootCmd with
    | .unavailable => ⟨true, false, true, true, true⟩
    | .exits _ => ⟨true, false, true, true, false⟩

/-- Trace of the `for attempt in range(1, tries+1)` loop in `main`. -/
structure LoopTrace where
  /-- number of `has_internet` calls made -/
  calls : ℕ
  /-- number of `time.sleep(args.wait)` calls made -/
  waits : ℕ
  /-- `some k` when the loop returned 0 on attempt `k` (internet found);
  `none` when the loop ran to completion and fell through -/
  verdict : Option ℤ
deriving DecidableEq, Repr

/-- The loop body starting at attempt number `attempt` with `n` iterations
left (so the last attempt number is `attempt + n - 1` and `attempt < tries`
iff at least one iteration remains after this one). -/
def loopGo (prober : ℤ → Bool) (n : ℕ) (attempt : ℤ) : LoopTrace :=
  match n with
  | 0 => ⟨0, 0, none⟩
  | m + 1 =>
    if prober attempt then ⟨1, 0, some attempt⟩
    else
      let rest := loopGo prober m (attempt + 1)
      ⟨rest.calls + 1, rest.waits + (if m = 0 then 0 else 1), rest.verdict⟩

/-- Embedding of the retry loop: `range(1, tries+1)` yields attempt
numbers `1..tries`, i.e. `max 0 tries` iterations starting at 1. -/
def runLoop (prober : ℤ → Bool) (tries : ℤ) : LoopTrace :=
  loopGo prober tries.toNat 1

/-- Privilege-query environment:
`none` — neither `os.geteuid` nor `os.getuid` exists;
`some none` — the function exists but raises when called;
`some (some v)` — the function exists and returns `v`. -/
def EuidEnv : Type := Option (Option ℤ)

/-- `is_root` as computed in `main`. -/
def isRoot (euid : EuidEnv) : Bool :=
  match euid with
  | none => false
  | some none => false
  | some (some v) => v == 0

/-- Full environment of one run of `main`: privilege query, a probe
environment for each attempt number, and the reboot commands. -/
structure MainEnv where
  euid : EuidEnv
  probeEnv : ℤ → ProbeEnv
  rebootEnv : RebootEnv

/-- The parsed CLI arguments of one run. -/
structure Args where
  host : String
  port : ℤ
  tries : ℤ
  timeout : PyFloat
  wait : ℚ
  dryRun : Bool

/-- How the process run ends: `exited c` for a normal return / `sys.exit`,
`raised` when an exception propagates to the process boundary. -/
inductive MainResult where
  | exited : Int → MainResult
  | raised : MainResult
deriving DecidableEq, Repr

/-- Trace of one run of `main`. -/
structure MainTrace where
  result : MainResult
  /-- the run ended at the privilege gate (`sys.exit(2)`) -/
  gateBlocked : Bool
  /-- number of `has_internet` calls -/
  probeCalls : ℕ
  /-- the durations of the sleeps performed, in order -/
  sleeps : List ℚ
  /-- the retry loop's outcome: `some k` = reachable on attempt `k`,
  `none` = all attempts failed (or the gate blocked before the loop) -/
  verdict : Option ℤ
  /-- `reboot_now` was invoked -/
  rebootCalled : Bool
  /-- trace of the `reboot_now` call, when it was invoked -/
  reboot : Option RebootTrace

/-- The prober `main` hands to the retry loop: one `has_internet` call
per attempt, in that attempt's probe environment. -/
def mainProber (env : MainEnv) (args : Args) : ℤ → Bool := fun i =>
  (has_internet (env.probeEnv i) args.host args.port args.timeout).result

/-- Embedding of `main()`. -/
def main (env : MainEnv) (args : Args) : MainTrace :=
  let is_root := isRoot env.euid
  if !is_root && !args.dryRun then
    ⟨.exited 2, true, 0, [], none, false, none⟩
  else
    let loop := runLoop (mainProber env args) args.tries
    match loop.verdict with
    | some k =>
      ⟨.exited 0, false, loop.calls, List.replicate loop.waits args.wait,
        some k, false, none⟩
    | none =>
      let rb := reboot_now env.rebootEnv args.dryRun
      ⟨if rb.raised then .raised else .exited 0, false, loop.calls,
        List.replicate loop.waits args.wait, none, true, some rb⟩

/-! ### Loop lemmas -/

theorem loopGo_all_false (prober : ℤ → Bool) (h : ∀ i, prober i = false)
    (n : ℕ) : ∀ a : ℤ, loopGo prober n a = ⟨n, n - 1, none⟩ := by
  induction n with
  | zero => exact fun a => rfl
  | succ m ih =>
    intro a
    simp only [loopGo, h, Bool.false_eq_true, if_false, ih, LoopTrace.mk.injEq]
    refine ⟨trivial, ?_, trivial⟩
    split <;> omega

theorem loopGo_first_true (prober : ℤ → Bool) (k : ℤ) (n : ℕ) :
    ∀ a : ℤ, a ≤ k → k < a + n → prober k = true →
    (∀ i, a ≤ i → i < k → prober i = false) →
    loopGo prober n a = ⟨(k - a + 1).toNat, (k - a).toNat, some k⟩ := by
  induction n with
  | zero =>
    intro a h1 h2 _ _
    exfalso; omega
  | succ m ih =>
    intro a h1 h2 htrue hfalse
    rcases eq_or_lt_of_le h1 with rfl | hlt
    · simp [loopGo, htrue]
    · have hpa : prober a = false := hfalse a le_rfl hlt
      have hm : m ≠ 0 := by omega
      have hrest := ih (a + 1) (by omega) (by omega) htrue
        (fun i hi1 hi2 => hfalse i (by omega) hi2)
      simp only [loopGo, hpa, Bool.false_eq_true, if_false, hrest, hm,
        LoopTrace.mk.injEq]
      refine ⟨?_, ?_, trivial⟩ <;> omega

theorem reboot_now_raised_iff (env : RebootEnv) (dry : Bool) :
    (reboot_now env dry).raised = true ↔
      dry = false ∧ env.systemctl ≠ .exits 0 ∧
        env.rebootCmd = .unavailable := by
  cases dry <;> by_cases hs : env.systemctl = .exits 0 <;>
    cases hr : env.rebootCmd <;> simp [reboot_now, hs, hr]

theorem gate_passes (env : MainEnv) (args : Args)
    (hgate : isRoot env.euid = true ∨ args.dryRun = true) :
    (!isRoot env.euid && !args.dryRun) = false := by
  rcases hgate with h | h <;> simp [h]

/-! ### Claim theorems -/

/-- C1: for every `maxAttempts ≥ 1`, if `has_internet` returns false on
every attempt, the retry loop makes exactly `maxAttempts` probe calls,
sleeps exactly `maxAttempts - 1` times, each sleep of duration
`args.wait`, produces the unreachable verdict, and proceeds to
`reboot_now`. -/
theorem retryLoop_exhausts_then_reboots (env : MainEnv) (args : Args)
    (hgate : isRoot env.euid = true ∨ args.dryRun = true)
    (htries : 1 ≤ args.tries)
    (hfail : ∀ i, mainProber env args i = false) :
    (main env args).probeCalls = args.tries.toNat ∧
    (main env args).sleeps = List.replicate (args.tries.toNat - 1) args.wait ∧
    (main env args).verdict = none ∧
    (main env args).rebootCalled = true := by
  have hloop : runLoop (mainProber env args) args.tries =
      ⟨args.tries.toNat, args.tries.toNat - 1, none⟩ :=
    loopGo_all_false _ hfail _ 1
  simp [main, gate_passes env args hgate, hloop]

theorem retryLoop_exhausts_then_reboots_witness :
    (main ⟨some (some 0), fun _ => ⟨.exits 1, .osError⟩, ⟨.exits 0, .exits 0⟩⟩
        ⟨"1.1.1.1", 53, 3, .val 3, 5, false⟩).probeCalls = 3 ∧
    (main ⟨some (some 0), fun _ => ⟨.exits 1, .osError⟩, ⟨.exits 0, .exits 0⟩⟩
        ⟨"1.1.1.1", 53, 3, .val 3, 5, false⟩).sleeps = [5, 5] ∧
    (main ⟨some (some 0), fun _ => ⟨.exits 1, .osError⟩, ⟨.exits 0, .exits 0⟩⟩
        ⟨"1.1.1.1", 53, 3, .val 3, 5, false⟩).rebootCalled = true := by
  have h := retryLoop_exhausts_then_reboots
    ⟨some (some 0), fun _ => ⟨.exits 1, .osError⟩, ⟨.exits 0, .exits 0⟩⟩
    ⟨"1.1.1.1", 53, 3, .val 3, 5, false⟩
    (Or.inl rfl) (by norm_num) (fun _ => rfl)
  refine ⟨h.1, ?_, h.2.2.2⟩
  simpa using h.2.1

/-- C2: if `has_internet` first returns true on attempt `k ≤ maxAttempts`,
the loop makes exactly `k` probe calls, returns the reachable verdict for
attempt `k` with exit status 0, and `reboot_now` is never invoked. -/
theorem retryLoop_reachable_short_circuits (env : MainEnv) (args : Args)
    (k : ℤ)
    (hgate : isRoot env.euid = true ∨ args.dryRun = true)
    (hk1 : 1 ≤ k) (hk2 : k ≤ args.tries)
    (htrue : mainProber env args k = true)
    (hfalse : ∀ i, 1 ≤ i → i < k → mainProber env args i = false) :
    (main env args).probeCalls = k.toNat ∧
    (main env args).verdict = some k ∧
    (main env args).result = .exited 0 ∧
    (main env args).rebootCalled = false := by
  have hloop : runLoop (mainProber env args) args.tries =
      ⟨(k - 1 + 1).toNat, (k - 1).toNat, some k⟩ :=
    loopGo_first_true _ k _ 1 hk1 (by omega) htrue hfalse
  have hcalls : (k - 1 + 1).toNat = k.toNat := by omega
  simp [main, gate_passes env args hgate, hloop, hcalls]

theorem retryLoop_reachable_short_circuits_witness :
    (main ⟨some (some 0), fun i => if i < 2 then ⟨.exits 1, .osError⟩
          else ⟨.exits 0, .osError⟩, ⟨.exits 0, .exits 0⟩⟩
        ⟨"1.1.1.1", 53, 3, .val 3, 5, false⟩).probeCalls = 2 ∧
    (main ⟨some (some 0), fun i => if i < 2 then ⟨.exits 1, .osError⟩
          else ⟨.exits 0, .osError⟩, ⟨.exits 0, .exits 0⟩⟩
        ⟨"1.1.1.1", 53, 3, .val 3, 5, false⟩).result = .exited 0 ∧
    (main ⟨some (some 0), fun i => if i < 2 then ⟨.exits 1, .osError⟩
          else ⟨.exits 0, .osError⟩, ⟨.exits 0, .exits 0⟩⟩
        ⟨"1.1.1.1", 53, 3, .val 3, 5, false⟩).rebootCalled = false := by
  have h := retryLoop_reachable_short_circuits
    ⟨some (some 0), fun i => if i < 2 then ⟨.exits 1, .osError⟩
        else ⟨.exits 0, .osError⟩, ⟨.exits 0, .exits 0⟩⟩
    ⟨"1.1.1.1", 53, 3, .val 3, 5, false⟩ 2
    (Or.inl rfl) (by norm_num) (by norm_num)
    (by
      unfold mainProber has_internet
      norm_num)
    (by
      intro i h1 h2
      unfold mainProber has_internet
      have : i < 2 := h2
      simp [this, waitSecs])
  exact ⟨h.1, h.2.2.1, h.2.2.2⟩

/-- C3: an unprivileged non-dry-run exits with code 2 before any probe
call; dry-run always passes the gate regardless of privilege. -/
theorem privilege_gate_blocks (env : MainEnv) (args : Args) :
    (isRoot env.euid = false ∧ args.dryRun = false →
      (main env args).result = .exited 2 ∧
      (main env args).probeCalls = 0 ∧
      (main env args).gateBlocked = true) ∧
    (args.dryRun = true → (main env args).gateBlocked = false) := by
  constructor
  · rintro ⟨h1, h2⟩
    simp [main, h1, h2]
  · intro h
    simp only [main, h, Bool.not_true, Bool.and_false, Bool.false_eq_true,
      if_false]
    split <;> rfl

theorem privilege_gate_blocks_witness :
    (main ⟨some (some 1000), fun _ => ⟨.exits 0, .connected⟩,
        ⟨.exits 0, .exits 0⟩⟩
      ⟨"1.1.1.1", 53, 3, .val 3, 5, false⟩).result = .exited 2 ∧
    (main ⟨some (some 1000), fun _ => ⟨.exits 0, .connected⟩,
        ⟨.exits 0, .exits 0⟩⟩
      ⟨"1.1.1.1", 53, 3, .val 3, 5, false⟩).probeCalls = 0 ∧
    (main ⟨none, fun _ => ⟨.exits 1, .osError⟩, ⟨.exits 0, .exits 0⟩⟩
      ⟨"1.1.1.1", 53, 1, .val 3, 5, true⟩).gateBlocked = false := by
  have h1 := (privilege_gate_blocks
    ⟨some (some 1000), fun _ => ⟨.exits 0, .connected⟩, ⟨.exits 0, .exits 0⟩⟩
    ⟨"1.1.1.1", 53, 3, .val 3, 5, false⟩).1 ⟨rfl, rfl⟩
  have h2 := (privilege_gate_blocks
    ⟨none, fun _ => ⟨.exits 1, .osError⟩, ⟨.exits 0, .exits 0⟩⟩
    ⟨"1.1.1.1", 53, 1, .val 3, 5, true⟩).2 rfl
  exact ⟨h1.1, h1.2.1, h2⟩

/-- C4: a dry run never calls `systemctl reboot --force` nor `reboot -f`,
only logs and prints the dry-run record when the trigger is reached, and
the run exits 0. -/
theorem dry_run_never_reboots (env : MainEnv) (args : Args)
    (hdry : args.dryRun = true) :
    (main env args).result = .exited 0 ∧
    (∀ rb, (main env args).reboot = some rb →
      rb.systemctlCalled = false ∧ rb.rebootCmdCalled = false ∧
      rb.logged = true ∧ rb.dryPrinted = true) := by
  have hrb : reboot_now env.rebootEnv args.dryRun =
      ⟨true, true, false, false, false⟩ := by
    rw [hdry]; rfl
  simp only [main, hdry, Bool.not_true, Bool.and_false, Bool.false_eq_true,
    if_false, hrb]
  split
  · exact ⟨rfl, fun rb hrb' => by simp at hrb'⟩
  · refine ⟨rfl, fun rb hrb' => ?_⟩
    simp only [Option.some.injEq] at hrb'
    subst hrb'
    exact ⟨rfl, rfl, rfl, rfl⟩

theorem dry_run_never_reboots_witness :
    (main ⟨some (some 1000), fun _ => ⟨.exits 1, .osError⟩,
        ⟨.exits 0, .exits 0⟩⟩
      ⟨"1.1.1.1", 53, 1, .val 3, 5, true⟩).result = .exited 0 ∧
    (main ⟨some (some 1000), fun _ => ⟨.exits 1, .osError⟩,
        ⟨.exits 0, .exits 0⟩⟩
      ⟨"1.1.1.1", 53, 1, .val 3, 5, true⟩).reboot =
        some ⟨true, true, false, false, false⟩ := by
  have h := dry_run_never_reboots
    ⟨some (some 1000), fun _ => ⟨.exits 1, .osError⟩, ⟨.exits 0, .exits 0⟩⟩
    ⟨"1.1.1.1", 53, 1, .val 3, 5, true⟩ rfl
  exact ⟨h.1, rfl⟩

/-- C5 counterexample: with the primary mechanism failing and the `reboot`
binary unavailable, an exception escapes `reboot_now` — the trigger does
not return control in all cases. -/
theorem reboot_fallback_counterexample :
    (reboot_now ⟨.exits 1, .unavailable⟩ false).raised = true := rfl

/-- C5 amended: when the primary reboot mechanism fails or is unavailable,
the fallback is attempted without re-raising the primary's error and its
own nonzero exit is not escalated, but a missing fallback binary raises
`FileNotFoundError` out of the trigger. -/
theorem reboot_fallback_amended (env : RebootEnv)
    (hfail : env.systemctl ≠ .exits 0) :
    (reboot_now env false).systemctlCalled = true ∧
    (reboot_now env false).rebootCmdCalled = true ∧
    (∀ rc : ℤ, env.rebootCmd = .exits rc →
      (reboot_now env false).raised = false) ∧
    (env.rebootCmd = .unavailable → (reboot_now env false).raised = true) := by
  cases hr : env.rebootCmd <;> simp [reboot_now, hfail, hr]

theorem reboot_fallback_amended_witness :
    (reboot_now ⟨.unavailable, .exits 1⟩ false).systemctlCalled = true ∧
    (reboot_now ⟨.unavailable, .exits 1⟩ false).rebootCmdCalled = true ∧
    (reboot_now ⟨.unavailable, .exits 1⟩ false).raised = false := by
  have h := reboot_fallback_amended ⟨.unavailable, .exits 1⟩ (by decide)
  exact ⟨h.1, h.2.1, h.2.2.1 1 rfl⟩

/-- C6 counterexample: a privileged non-dry run whose probes all fail, with
`systemctl` and the `reboot` binary both unavailable, ends with a
propagated exception rather than exit code 0 or 2. -/
theorem exit_codes_counterexample :
    (main ⟨some (some 0), fun _ => ⟨.exits 1, .osError⟩,
        ⟨.unavailable, .unavailable⟩⟩
      ⟨"1.1.1.1", 53, 1, .val 3, 5, false⟩).result = .raised := by
  rfl

/-- C6 amended: every run ends with exit code 0 or 2, except that when a
real (non-dry-run) reboot is triggered, the primary mechanism does not
exit 0, and the fallback binary is unavailable, the fallback's
`FileNotFoundError` propagates to the process boundary. -/
theorem exit_codes_amended (env : MainEnv) (args : Args) :
    (main env args).result = .exited 0 ∨
    (main env args).result = .exited 2 ∨
    ((main env args).result = .raised ∧ args.dryRun = false ∧
      env.rebootEnv.systemctl ≠ .exits 0 ∧
      env.rebootEnv.rebootCmd = .unavailable ∧
      (main env args).rebootCalled = true) := by
  by_cases hc : (!isRoot env.euid && !args.dryRun) = true
  · right; left
    simp [main, hc]
  · rw [Bool.not_eq_true] at hc
    simp only [main, hc, Bool.false_eq_true, if_false]
    split
    · left; rfl
    · by_cases hra : (reboot_now env.rebootEnv args.dryRun).raised = true
      · right; right
        have hchar := (reboot_now_raised_iff env.rebootEnv args.dryRun).mp hra
        exact ⟨by simp [hra], hchar.1, hchar.2.1, hchar.2.2, rfl⟩
      · left
        rw [Bool.not_eq_true] at hra
        simp [hra]

theorem exit_codes_amended_witness :
    (main ⟨some (some 1000), fun _ => ⟨.exits 0, .connected⟩,
        ⟨.exits 0, .exits 0⟩⟩
      ⟨"1.1.1.1", 53, 1, .val 3, 5, true⟩).result = .exited 0 := by
  rcases exit_codes_amended
    ⟨some (some 1000), fun _ => ⟨.exits 0, .connected⟩, ⟨.exits 0, .exits 0⟩⟩
    ⟨"1.1.1.1", 53, 1, .val 3, 5, true⟩ with h | h | h
  · exact h
  · exact absurd h (by decide)
  · exact absurd h.2.1 (by decide)

/-- C7: the TCP fallback runs iff the `ping` binary is missing — never on
a merely failed or timed-out ping — and then connects to `port` (or 53
when `port` is zero) with the original fractional timeout, succeeding iff
the connection completes. -/
theorem prober_fallback_iff (env : ProbeEnv) (host : String) (port : ℤ)
    (timeout : PyFloat) :
    ((has_internet env host port timeout).usedFallback = true ↔
      env.ping = .unavailable) ∧
    (env.ping = .unavailable →
      (has_internet env host port timeout).tcpPort =
        some (if port = 0 then 53 else port) ∧
      (has_internet env host port timeout).tcpTimeout = some timeout ∧
      ((has_internet env host port timeout).result = true ↔
        env.tcp = .connected)) := by
  cases hp : env.ping <;> cases ht : env.tcp <;>
    simp [has_internet, hp, ht]

theorem prober_fallback_iff_witness :
    (has_internet ⟨.unavailable, .connected⟩ "1.1.1.1" 0 (.val 3)).usedFallback
      = true ∧
    (has_internet ⟨.unavailable, .connected⟩ "1.1.1.1" 0 (.val 3)).tcpPort
      = some 53 ∧
    (has_internet ⟨.unavailable, .connected⟩ "1.1.1.1" 0 (.val 3)).tcpTimeout
      = some (.val 3) ∧
    (has_internet ⟨.unavailable, .connected⟩ "1.1.1.1" 0 (.val 3)).result
      = true := by
  have h := prober_fallback_iff ⟨.unavailable, .connected⟩ "1.1.1.1" 0 (.val 3)
  have h2 := h.2 rfl
  refine ⟨h.1.mpr rfl, ?_, h2.2.1, h2.2.2.mpr rfl⟩
  simpa using h2.1

/-- C8 counterexample: a malformed timeout value does not make the prober
return false — with `ping` present and replying, the prober returns true
(the malformed value only degrades the wait to 1 second). -/
theorem prober_failure_counterexample :
    (has_internet ⟨.exits 0, .osError⟩ "1.1.1.1" 53 .malformed).result
      = true := rfl

/-- C8 amended: every non-capability-unavailable transport failure —
a failed or timed-out ping, a refused or timed-out TCP connection —
makes the prober return false without propagating an exception; a
malformed timeout value instead degrades to the 1-second minimum wait
and the probe proceeds normally. -/
theorem prober_failure_amended (env : ProbeEnv) (host : String) (port : ℤ)
    (timeout : PyFloat) :
    (∀ rc : ℤ, env.ping = .exits rc → rc ≠ 0 →
      (has_internet env host port timeout).result = false) ∧
    (env.ping = .unavailable → env.tcp = .osError →
      (has_internet env host port timeout).result = false) ∧
    (has_internet env host port .malformed).pingWait = 1 := by
  refine ⟨fun rc hp hrc => ?_, fun hp ht => ?_, ?_⟩
  · simp [has_internet, hp, hrc]
  · simp [has_internet, hp, ht]
  · cases hp : env.ping <;> cases ht : env.tcp <;>
      simp [has_internet, hp, ht, waitSecs]

theorem prober_failure_amended_witness :
    (has_internet ⟨.exits 1, .osError⟩ "1.1.1.1" 53 (.val 3)).result
      = false ∧
    (has_internet ⟨.unavailable, .osError⟩ "1.1.1.1" 53 (.val 3)).result
      = false ∧
    (has_internet ⟨.exits 0, .connected⟩ "1.1.1.1" 53 .malformed).pingWait
      = 1 := by
  refine ⟨(prober_failure_amended ⟨.exits 1, .osError⟩ "1.1.1.1" 53
      (.val 3)).1 1 rfl (by norm_num),
    (prober_failure_amended ⟨.unavailable, .osError⟩ "1.1.1.1" 53
      (.val 3)).2.1 rfl rfl,
    (prober_failure_amended ⟨.exits 0, .connected⟩ "1.1.1.1" 53
      (.val 3)).2.2⟩

/-- C9: the `-W` wait passed to `ping` equals `max 1 (pyRound timeout)`
(`timeout` rounded to the nearest integer second, minimum 1 second), and a
malformed timeout value degrades to the 1-second minimum. -/
theorem ping_wait_rounding (env : ProbeEnv) (host : String) (port : ℤ) :
    (∀ q : ℚ, (has_internet env host port (.val q)).pingWait =
      max 1 (pyRound q)) ∧
    (has_internet env host port .malformed).pingWait = 1 := by
  constructor
  · intro q
    cases hp : env.ping <;> cases ht : env.tcp <;>
      simp [has_internet, hp, ht, waitSecs]
  · cases hp : env.ping <;> cases ht : env.tcp <;>
      simp [has_internet, hp, ht, waitSecs]

theorem ping_wait_rounding_witness :
    (has_internet ⟨.exits 0, .connected⟩ "1.1.1.1" 53 (.val (5/2))).pingWait
      = 2 ∧
    (has_internet ⟨.exits 0, .connected⟩ "1.1.1.1" 53 .malformed).pingWait
      = 1 := by
  have h := ping_wait_rounding ⟨.exits 0, .connected⟩ "1.1.1.1" 53
  refine ⟨?_, h.2⟩
  rw [h.1 (5/2)]
  norm_num [pyRound]

/-- C10: with `--tries` zero or negative, the loop body never runs: no
probe call and no sleep happens, `reboot_now` is invoked unconditionally,
and (when the trigger returns) `main` returns 0 — the `maxAttempts ≥ 1`
invariant is not enforced at the CLI boundary. -/
theorem nonpositive_tries_reboots (env : MainEnv) (args : Args)
    (hgate : isRoot env.euid = true ∨ args.dryRun = true)
    (htries : args.tries ≤ 0)
    (hret : (reboot_now env.rebootEnv args.dryRun).raised = false) :
    (main env args).probeCalls = 0 ∧
    (main env args).sleeps = [] ∧
    (main env args).rebootCalled = true ∧
    (main env args).result = .exited 0 := by
  have h0 : args.tries.toNat = 0 := by omega
  have hloop : runLoop (mainProber env args) args.tries = ⟨0, 0, none⟩ := by
    unfold runLoop
    rw [h0]
    rfl
  simp [main, gate_passes env args hgate, hloop, hret]

theorem nonpositive_tries_reboots_witness :
    (main ⟨none, fun _ => ⟨.exits 0, .connected⟩, ⟨.unavailable, .unavailable⟩⟩
      ⟨"1.1.1.1", 53, 0, .val 3, 5, true⟩).probeCalls = 0 ∧
    (main ⟨none, fun _ => ⟨.exits 0, .connected⟩, ⟨.unavailable, .unavailable⟩⟩
      ⟨"1.1.1.1", 53, 0, .val 3, 5, true⟩).rebootCalled = true ∧
    (main ⟨none, fun _ => ⟨.exits 0, .connected⟩, ⟨.unavailable, .unavailable⟩⟩
      ⟨"1.1.1.1", 53, 0, .val 3, 5, true⟩).result = .exited 0 := by
  have h := nonpositive_tries_reboots
    ⟨none, fun _ => ⟨.exits 0, .connected⟩, ⟨.unavailable, .unavailable⟩⟩
    ⟨"1.1.1.1", 53, 0, .val 3, 5, true⟩
    (Or.inr rfl) (by norm_num) rfl
  exact ⟨h.1, h.2.2.1, h.2.2.2⟩

end Autorebooter
